import Mathlib

/-!
Shallow embedding of the SBT (Spontaneous Breathing Trial) eligibility
checker, `src/sbt_checker.py` (function `check_sbt_eligibility`) together
with the record-building part of the `/check` route in `src/app.py`.

Modelling conventions:
* Python dict fields that the checker reads with `.get` are `Option`-valued
  structure fields; `none` covers both a missing key and a stored `null`
  (the checker treats the two identically everywhere it looks).
* Dynamic scalar values that may be a string or a number are `PyVal`
  (strings and rationals; Python floats are modelled as rationals, which is
  exact for every numeral the checker compares against).
* The checker can raise uncaught exceptions (`TypeError` from comparing an
  offset-aware with an offset-naive datetime, `AttributeError` from calling
  `.lower()` on a truthy non-string medication name).  The evaluator is
  therefore embedded as `Except PyErr (Option Task)`: `.ok none` is the
  Python `None` ("Absent") outcome, `.ok (some t)` is a returned task, and
  `.error e` is an uncaught exception.
* `datetime.now()` is made explicit: the current-time string is an extra
  argument `now`, used only for the task's `createdAt` field.
* `datetime.fromisoformat` is modelled on the grammar the checker's data
  actually uses: `YYYY-MM-DD`, optionally followed by `THH:MM:SS`,
  optionally followed by a `+HH:MM` / `-HH:MM` offset (which is what a
  trailing `Z` becomes after the checker's `replace('Z', '+00:00')`).
  Other ISO forms are treated as unparsable.  Parsed datetimes carry their
  wall-clock/UTC seconds and an awareness flag, and comparisons between
  datetimes of different awareness raise `TypeError`, as in Python.
-/

namespace SBT

/-- A dynamically typed scalar value as it appears in the patient JSON:
either a string or a number. -/
inductive PyVal where
  | vstr (s : String)
  | vnum (q : Rat)
deriving DecidableEq

/-- The uncaught exceptions the checker can actually raise. -/
inductive PyErr where
  | typeError
  | attributeError
deriving DecidableEq

/-- A parsed Python `datetime`: total seconds (wall clock for naive values,
UTC-adjusted for aware values) plus the tzinfo-awareness flag. -/
structure PyDateTime where
  seconds : Int
  aware : Bool
deriving DecidableEq

/-- A Python `date` (the `check_date` argument). -/
structure PyDate where
  year : Nat
  month : Nat
  day : Nat
deriving DecidableEq

/-- One entry of the patient's `vitals` list, with the five keys the
checker reads. -/
structure Vital where
  timestamp : Option String
  daysFiO2 : Option PyVal
  daysVentPEEP : Option PyVal
  daysVentBreathSequence : Option PyVal
  daysHR : Option PyVal
deriving DecidableEq

/-- One entry of `orders.active.medications`. -/
structure Medication where
  name : Option PyVal
deriving DecidableEq

/-- The patient record read by `check_sbt_eligibility`. -/
structure PatientRecord where
  CPMRN : Option String
  name : Option String
  lastName : Option String
  hospitalName : Option String
  unitName : Option String
  bedNo : Option String
  medications : List Medication
  vitals : List Vital
deriving DecidableEq

/-- The task dictionary returned on success. -/
structure Task where
  createdBy : String
  CPMRN : String
  patientName : String
  hospital : String
  unit : String
  BedNumber : String
  createdAt : String
  Urgency : String
  Message : String
deriving DecidableEq

/-! ### String helpers (explicit models of the Python string operations) -/

/-- `leadSeg n l` is true when `n` is a leading segment of `l`. -/
def leadSeg : List Char → List Char → Bool
  | [], _ => true
  | _ :: _, [] => false
  | a :: xs, b :: ys => a = b && leadSeg xs ys

/-- `hasSeg n l` is true when `n` occurs contiguously inside `l`
(the model of Python's `n in l` for strings). -/
def hasSeg (n : List Char) : List Char → Bool
  | [] => n.isEmpty
  | b :: t => leadSeg n (b :: t) || hasSeg n t

/-- Python `needle in hay` on strings. -/
def strHasSubstr (hay needle : String) : Bool :=
  hasSeg needle.toList hay.toList

/-- Python `str.lower` (ASCII model). -/
def strLower (s : String) : String :=
  ⟨s.toList.map Char.toLower⟩

/-- ASCII whitespace, for the model of Python `str.strip()`. -/
def isSpaceCh (c : Char) : Bool :=
  c = ' ' || c = '\t' || c = '\n' || c = '\r'

/-- Strip whitespace from both ends of a character list. -/
def trimChars (cs : List Char) : List Char :=
  ((cs.dropWhile isSpaceCh).reverse.dropWhile isSpaceCh).reverse

/-- Python `str.strip()` (ASCII model). -/
def strTrim (s : String) : String :=
  ⟨trimChars s.toList⟩

/-- `s.replace('Z', '+00:00')` from the checker's timestamp handling. -/
def pyReplaceZ (s : String) : String :=
  ⟨s.toList.foldr
    (fun c acc =>
      if c = 'Z' then '+' :: '0' :: '0' :: ':' :: '0' :: '0' :: acc
      else c :: acc) []⟩

/-- `'Z' in s`. -/
def strHasZ (s : String) : Bool :=
  s.toList.any (fun c => c = 'Z')

/-! ### Numeric coercion: the model of Python `float(...)` -/

/-- Decimal digits to a natural number. -/
def digitsToNat (cs : List Char) : Nat :=
  cs.foldl (fun a c => 10 * a + (c.toNat - 48)) 0

/-- Split a character list into its leading run of digits and the rest. -/
def splitDigits : List Char → List Char × List Char
  | [] => ([], [])
  | c :: r =>
    if c.isDigit then
      let p := splitDigits r
      (c :: p.1, p.2)
    else ([], c :: r)

/-- Unsigned part of `float(...)` string parsing: digits with an optional
decimal point (`"60"`, `"60."`, `".5"`, `"60.5"`).  Exponents, `inf`,
`nan` and underscores are not modelled; the checker's data never uses
them. -/
def parseFloatCore (cs : List Char) : Option Rat :=
  let ip := splitDigits cs
  match ip.2 with
  | [] => if ip.1.isEmpty then none else some (digitsToNat ip.1 : Rat)
  | '.' :: r2 =>
    let fp := splitDigits r2
    if fp.2.isEmpty && !(ip.1.isEmpty && fp.1.isEmpty) then
      some ((digitsToNat ip.1 : Rat) + (digitsToNat fp.1 : Rat) / ((10 : Rat) ^ fp.1.length))
    else none
  | _ => none

/-- Python `float(s)` on a string: strip whitespace, optional sign,
decimal literal. -/
def parseFloat (s : String) : Option Rat :=
  match trimChars s.toList with
  | '+' :: cs => parseFloatCore cs
  | '-' :: cs => (parseFloatCore cs).map (fun q => -q)
  | cs => parseFloatCore cs

/-- Python `float(v)` on a dynamic value: numbers pass through, strings
are parsed.  A parse failure is `none` (the checker catches `ValueError`
and `TypeError` around every `float(...)` call). -/
def tryFloat : PyVal → Option Rat
  | .vnum q => some q
  | .vstr s => parseFloat s

/-- The checker's `float(x) if x is not None else None` idiom with its
surrounding `try/except`: `none` for a missing value or a failed
coercion. -/
def coerceNum : Option PyVal → Option Rat
  | none => none
  | some v => tryFloat v

/-! ### The model of `datetime.fromisoformat` -/

/-- Gregorian leap year. -/
def isLeap (y : Nat) : Bool :=
  y % 4 = 0 && (y % 100 ≠ 0 || y % 400 = 0)

/-- Length of month `m` in year `y`. -/
def monthLen (y m : Nat) : Nat :=
  if m = 2 then (if isLeap y then 29 else 28)
  else if m = 4 || m = 6 || m = 9 || m = 11 then 30
  else 31

/-- Days in year `y` before the first of month `m`. -/
def daysBeforeMonth (y m : Nat) : Nat :=
  (List.range (m - 1)).foldl (fun a i => a + monthLen y (i + 1)) 0

/-- Days from 0001-01-01 to the given date (proleptic Gregorian). -/
def epochDays (y m d : Nat) : Nat :=
  (y - 1) * 365 + (y - 1) / 4 + (y - 1) / 400 - (y - 1) / 100
    + daysBeforeMonth y m + (d - 1)

/-- A calendar-valid date as `datetime` requires. -/
def isoDateValid (y m d : Nat) : Bool :=
  1 ≤ y && 1 ≤ m && m ≤ 12 && 1 ≤ d && d ≤ monthLen y m

/-- Take one decimal digit. -/
def takeDigit : List Char → Option (Nat × List Char)
  | c :: r => if c.isDigit then some (c.toNat - 48, r) else none
  | [] => none

/-- Take two decimal digits. -/
def take2 (cs : List Char) : Option (Nat × List Char) := do
  let a ← takeDigit cs
  let b ← takeDigit a.2
  pure (10 * a.1 + b.1, b.2)

/-- Take four decimal digits. -/
def take4 (cs : List Char) : Option (Nat × List Char) := do
  let a ← take2 cs
  let b ← take2 a.2
  pure (100 * a.1 + b.1, b.2)

/-- Expect a literal character. -/
def expectCh (c : Char) : List Char → Option (List Char)
  | x :: r => if x = c then some r else none
  | [] => none

/-- Parse `HH:MM:SS` with `datetime`'s range checks. -/
def parseHMS (cs : List Char) : Option (Nat × Nat × Nat × List Char) := do
  let h ← take2 cs
  let r2 ← expectCh ':' h.2
  let mi ← take2 r2
  let r4 ← expectCh ':' mi.2
  let s ← take2 r4
  if h.1 ≤ 23 && mi.1 ≤ 59 && s.1 ≤ 59 then
    pure (h.1, mi.1, s.1, s.2)
  else none

/-- Parse a trailing `HH:MM` UTC offset (seconds, signed by `sign`);
the whole input must be consumed. -/
def parseOff (sign : Int) (cs : List Char) : Option Int := do
  let oh ← take2 cs
  let r2 ← expectCh ':' oh.2
  let om ← take2 r2
  if om.2.isEmpty && oh.1 ≤ 23 && om.1 ≤ 59 then
    pure (sign * ((oh.1 : Int) * 3600 + (om.1 : Int) * 60))
  else none

/-- Model of `datetime.fromisoformat` on the grammar described in the
header comment.  Aware results store UTC-adjusted seconds. -/
def fromisoformat (s : String) : Option PyDateTime := do
  let cs := s.toList
  let y ← take4 cs
  let r2 ← expectCh '-' y.2
  let mo ← take2 r2
  let r4 ← expectCh '-' mo.2
  let dy ← take2 r4
  if isoDateValid y.1 mo.1 dy.1 then
    let base : Int := (epochDays y.1 mo.1 dy.1 : Int) * 86400
    match dy.2 with
    | [] => pure ⟨base, false⟩
    | 'T' :: r6 => do
      let hms ← parseHMS r6
      let t : Int := base + (hms.1 : Int) * 3600 + (hms.2.1 : Int) * 60 + (hms.2.2.1 : Int)
      match hms.2.2.2 with
      | [] => pure ⟨t, false⟩
      | '+' :: r8 => do
        let off ← parseOff 1 r8
        pure ⟨t - off, true⟩
      | '-' :: r8 => do
        let off ← parseOff (-1) r8
        pure ⟨t - off, true⟩
      | _ => none
    | _ => none
  else none

/-- The checker's timestamp-parsing expression:
`datetime.fromisoformat(ts.replace('Z', '+00:00') if 'Z' in ts else ts)`. -/
def parseVitalTs (s : String) : Option PyDateTime :=
  fromisoformat (if strHasZ s then pyReplaceZ s else s)

/-- The parsed timestamp of a vital, `none` when the key is missing, the
string is falsy (empty), or parsing raises `ValueError` (which the checker
catches). -/
def vitalTs (v : Vital) : Option PyDateTime :=
  match v.timestamp with
  | none => none
  | some s => if s = "" then none else parseVitalTs s

/-- Python `a > b` on datetimes: `TypeError` when exactly one side is
offset-aware. -/
def pyGT (a b : PyDateTime) : Except PyErr Bool :=
  if a.aware = b.aware then .ok (decide (b.seconds < a.seconds))
  else .error .typeError

/-- Python `a < b` on datetimes: `TypeError` when exactly one side is
offset-aware. -/
def pyLT (a b : PyDateTime) : Except PyErr Bool :=
  if a.aware = b.aware then .ok (decide (a.seconds < b.seconds))
  else .error .typeError

/-! ### The latest-vital scan (sbt_checker.py lines 36-53) -/

/-- The checker's left-to-right scan for the latest vital.  The
accumulator holds the current `(latest_timestamp, latest_vital)` pair.
A new parseable timestamp replaces the accumulator only when strictly
greater (Python `>`); comparing timestamps of different awareness raises
`TypeError`, which the loop's `except (ValueError, AttributeError)` does
not catch. -/
def scanVitals : List Vital → Option (PyDateTime × Vital) → Except PyErr (Option (PyDateTime × Vital))
  | [], acc => .ok acc
  | v :: rest, acc =>
    match vitalTs v with
    | none => scanVitals rest acc
    | some dt =>
      match acc with
      | none => scanVitals rest (some (dt, v))
      | some (mx, mv) =>
        match pyGT dt mx with
        | .error e => .error e
        | .ok true => scanVitals rest (some (dt, v))
        | .ok false => scanVitals rest (some (mx, mv))

/-! ### Gate 2: the medication scan (sbt_checker.py lines 76-88) -/

/-- `medication.get('name', '').lower() if medication.get('name') else ''`:
a falsy (missing, empty-string or zero) name gives `''`; a truthy string
is lower-cased; `.lower()` on a truthy number raises `AttributeError`
(uncaught). -/
def medNameLower (m : Medication) : Except PyErr String :=
  match m.name with
  | none => .ok ""
  | some (.vstr s) => if s = "" then .ok "" else .ok (strLower s)
  | some (.vnum q) => if q = 0 then .ok "" else .error .attributeError

/-- The loop looking for `'noradrenaline' in med_name`. -/
def medsNoradrenaline : List Medication → Except PyErr Bool
  | [] => .ok false
  | m :: rest =>
    match medNameLower m with
    | .error e => .error e
    | .ok nm =>
      if strHasSubstr nm "noradrenaline" then .ok true
      else medsNoradrenaline rest

/-! ### Gate 3: the recent-instability scan (sbt_checker.py lines 90-119) -/

/-- Seconds of `datetime.combine(check_date, time.min)` — midnight of the
check date, offset-naive. -/
def dateStartSeconds (d : PyDate) : Int :=
  (epochDays d.year d.month d.day : Int) * 86400

/-- The scan over all vitals for one at or after midnight of the check
date with `daysVentBreathSequence == "csv"` and `daysHR < 120`.
Returns `true` when such a vital is found (the checker then returns
`None`).  The `vital_timestamp < check_datetime_start` comparison raises
`TypeError` on an offset-aware timestamp (uncaught); the `float(days_hr)`
failure is caught and skipped. -/
def gate3Scan (start : Int) : List Vital → Except PyErr Bool
  | [] => .ok false
  | v :: rest =>
    match vitalTs v with
    | none => gate3Scan start rest
    | some dt =>
      match pyLT dt ⟨start, false⟩ with
      | .error e => .error e
      | .ok true => gate3Scan start rest
      | .ok false =>
        if v.daysVentBreathSequence = some (PyVal.vstr "csv") then
          match coerceNum v.daysHR with
          | some h => if h < 120 then .ok true else gate3Scan start rest
          | none => gate3Scan start rest
        else gate3Scan start rest

/-- The per-vital trigger condition of gate 3, as a boolean predicate:
parseable offset-naive timestamp at or after `start`, breath sequence
equal to the string `"csv"`, and a heart rate that coerces to a number
below 120. -/
def isTrigger (start : Int) (v : Vital) : Bool :=
  match vitalTs v with
  | none => false
  | some dt =>
    !dt.aware && decide (start ≤ dt.seconds)
      && decide (v.daysVentBreathSequence = some (PyVal.vstr "csv"))
      && (match coerceNum v.daysHR with
          | none => false
          | some h => decide (h < 120))

/-! ### The evaluator (sbt_checker.py lines 12-138) -/

/-- Gates 1-3 once `latest_vital` has been selected (sbt_checker.py
lines 56-119): the threshold checks on the latest vital (early `return
None` on a missing/unparsable value or a value at/above threshold), then
the medication scan, then the instability scan. -/
def gatesAfterLatest (pr : PatientRecord) (d : PyDate) (lv : Vital) : Except PyErr Bool :=
  match coerceNum lv.daysFiO2 with
  | none => .ok false
  | some f =>
    if 60 ≤ f then .ok false
    else
      match coerceNum lv.daysVentPEEP with
      | none => .ok false
      | some p =>
        if 10 ≤ p then .ok false
        else
          match medsNoradrenaline pr.medications with
          | .error e => .error e
          | .ok true => .ok false
          | .ok false =>
            match gate3Scan (dateStartSeconds d) pr.vitals with
            | .error e => .error e
            | .ok true => .ok false
            | .ok false => .ok true

/-- The decision part of `check_sbt_eligibility`: everything up to (but
not including) building the task.  `.ok true` means all three gates
passed. -/
def sbtDecision (pr : PatientRecord) (d : PyDate) : Except PyErr Bool :=
  if pr.vitals = [] then .ok false
  else
    match scanVitals pr.vitals none with
    | .error e => .error e
    | .ok none => .ok false
    | .ok (some (_, lv)) => gatesAfterLatest pr d lv

/-- The task dictionary built on success (sbt_checker.py lines 121-138);
`now` stands for `datetime.now().isoformat()`. -/
def mkTask (pr : PatientRecord) (now : String) : Task :=
  let n := pr.name.getD ""
  let l := pr.lastName.getD ""
  { createdBy := "SBT agent"
  , CPMRN := pr.CPMRN.getD ""
  , patientName := if n ≠ "" ∨ l ≠ "" then strTrim (n ++ " " ++ l) else ""
  , hospital := pr.hospitalName.getD ""
  , unit := pr.unitName.getD ""
  , BedNumber := pr.bedNo.getD ""
  , createdAt := now
  , Urgency := "Low"
  , Message := "Please order a SBT for this patient as patient is not on noradrenaline, and fio2 is less than 0.6 with a peep less than 10" }

/-- `check_sbt_eligibility`: `.ok none` is Python `None` (Absent),
`.ok (some t)` is a returned task, `.error e` an uncaught exception. -/
def check_sbt_eligibility (pr : PatientRecord) (d : PyDate) (now : String) : Except PyErr (Option Task) :=
  match sbtDecision pr d with
  | .error e => .error e
  | .ok false => .ok none
  | .ok true => .ok (some (mkTask pr now))

/-! ### The inbound adapter (app.py, route `/check`, lines 28-72) -/

/-- The `latestVital` object of the request payload. -/
structure FormLatestVital where
  timestamp : Option String
  daysFiO2 : Option PyVal
  daysVentPEEP : Option PyVal
deriving DecidableEq

/-- One entry of the request payload's `vitals` list.  The adapter copies
`daysVentBreathSequence` / `daysHR` only when the key is present; `none`
covers an absent key (and a stored `null`, which the checker treats the
same way). -/
structure FormVital where
  timestamp : Option String
  daysVentBreathSequence : Option PyVal
  daysHR : Option PyVal
deriving DecidableEq

/-- The request payload fields the route reads. -/
structure FormData where
  CPMRN : Option String
  name : Option String
  lastName : Option String
  hospitalName : Option String
  unitName : Option String
  bedNo : Option String
  medications : List (Option String)
  latestVital : Option FormLatestVital
  vitals : List FormVital
deriving DecidableEq

/-- The vitals entry the route builds from `latestVital`: timestamp and
the two ventilator fields only. -/
def latestVitalEntry (lv : FormLatestVital) : Vital :=
  { timestamp := lv.timestamp
  , daysFiO2 := lv.daysFiO2
  , daysVentPEEP := lv.daysVentPEEP
  , daysVentBreathSequence := none
  , daysHR := none }

/-- The vitals entry the route builds from an "other vital": timestamp
plus the two instability fields; it never copies `daysFiO2` or
`daysVentPEEP`. -/
def otherVitalEntry (v : FormVital) : Vital :=
  { timestamp := v.timestamp
  , daysFiO2 := none
  , daysVentPEEP := none
  , daysVentBreathSequence := v.daysVentBreathSequence
  , daysHR := v.daysHR }

/-- The medication list the route builds: blank or whitespace-only names
are skipped, kept names are stripped. -/
def buildMedications (ms : List (Option String)) : List Medication :=
  ms.filterMap (fun m =>
    match m with
    | none => none
    | some n =>
      if n ≠ "" ∧ strTrim n ≠ "" then some { name := some (PyVal.vstr (strTrim n)) }
      else none)

/-- The patient record the `/check` route hands to the checker. -/
def buildPatientJson (fd : FormData) : PatientRecord :=
  { CPMRN := some (fd.CPMRN.getD "")
  , name := some (fd.name.getD "")
  , lastName := some (fd.lastName.getD "")
  , hospitalName := some (fd.hospitalName.getD "")
  , unitName := some (fd.unitName.getD "")
  , bedNo := some (fd.bedNo.getD "")
  , medications := buildMedications fd.medications
  , vitals :=
      (match fd.latestVital with
       | none => []
       | some lv => [latestVitalEntry lv]) ++ fd.vitals.map otherVitalEntry }

/-- A task with its `createdAt` field blanked, for comparing two
evaluation outcomes modulo the wall-clock read. -/
def dropCreatedAt (t : Task) : Task :=
  { t with createdAt := "" }

/-! ### Concrete inputs used to exercise the model -/

/-- The evaluation date used by the concrete scenarios. -/
def checkDate0 : PyDate := ⟨2025, 7, 15⟩

/-- Midnight of the evaluation date, in seconds. -/
def midnight0 : Int := dateStartSeconds checkDate0

/-- 06:00 on the evaluation date, offset-naive. -/
def ts0600 : PyDateTime := ⟨midnight0 + 21600, false⟩

/-- 07:00 on the evaluation date, offset-naive. -/
def ts0700 : PyDateTime := ⟨midnight0 + 25200, false⟩

/-- A vital at 06:00 satisfying the latest-vital thresholds. -/
def vGood06 : Vital :=
  ⟨some "2025-07-15T06:00:00", some (PyVal.vnum 50), some (PyVal.vnum 5), none, none⟩

/-- A vital at 07:00 satisfying the latest-vital thresholds. -/
def vGood07 : Vital :=
  ⟨some "2025-07-15T07:00:00", some (PyVal.vnum 50), some (PyVal.vnum 5), none, none⟩

/-- A vital at 06:00 in `"csv"` mode with heart rate 100. -/
def vCsv06 : Vital :=
  ⟨some "2025-07-15T06:00:00", none, none, some (PyVal.vstr "csv"), some (PyVal.vnum 100)⟩

/-- A vital whose timestamp is Z-suffixed, hence offset-aware after
parsing. -/
def vAware06 : Vital := ⟨some "2025-07-15T06:00:00Z", none, none, none, none⟩

/-- A bare offset-naive vital at 07:00. -/
def vNaive07 : Vital := ⟨some "2025-07-15T07:00:00", none, none, none, none⟩

/-- A second, distinct vital with the same 07:00 timestamp (for the
tie-breaking scenario). -/
def vDup07 : Vital :=
  ⟨some "2025-07-15T07:00:00", none, none, none, some (PyVal.vnum 90)⟩

/-- A vital whose timestamp does not parse. -/
def vBadTs : Vital := ⟨some "not-a-timestamp", none, none, none, none⟩

/-- A vital whose `daysFiO2` is exactly the threshold 60. -/
def vBoundary60 : Vital :=
  ⟨some "2025-07-15T06:00:00", some (PyVal.vnum 60), some (PyVal.vnum 5), none, none⟩

/-- A patient record with no identifiers, no medications and no vitals. -/
def basePatient : PatientRecord := ⟨none, none, none, none, none, none, [], []⟩

/-- Vitals mixing a Z-suffixed (aware) and an offset-less (naive)
timestamp. -/
def prMixedTz : PatientRecord := { basePatient with vitals := [vAware06, vNaive07] }

/-- An eligible-looking record whose medication entry has a truthy
non-string name. -/
def prBadMedName : PatientRecord :=
  { basePatient with medications := [⟨some (PyVal.vnum 5)⟩], vitals := [vGood06] }

/-- A record whose latest vital sits exactly at the FiO2 threshold. -/
def prBoundary : PatientRecord := { basePatient with vitals := [vBoundary60] }

/-- A record with a noradrenaline medication preceded by a truthy
non-string name (gate 2 raises before reaching the match). -/
def prNoradRaise : PatientRecord :=
  { basePatient with
    medications := [⟨some (PyVal.vnum 5)⟩, ⟨some (PyVal.vstr "Noradrenaline")⟩]
  , vitals := [vGood06] }

/-- A record with a single noradrenaline-containing medication name. -/
def prNorad : PatientRecord :=
  { basePatient with
    medications := [⟨some (PyVal.vstr "IV Noradrenaline bitartrate")⟩]
  , vitals := [vGood06] }

/-- A record whose latest vital passes gate 1 while an earlier same-day
vital triggers gate 3. -/
def prGate3 : PatientRecord := { basePatient with vitals := [vCsv06, vGood07] }

/-- A single Z-suffixed (offset-aware) vital that passes gate 1 and
satisfies gate 3's clinical conditions (`"csv"`, heart rate 100). -/
def vAwareCsv : Vital :=
  ⟨some "2025-07-15T06:00:00Z", some (PyVal.vnum 50), some (PyVal.vnum 5),
    some (PyVal.vstr "csv"), some (PyVal.vnum 100)⟩

/-- The record holding only `vAwareCsv`: gates 1-2 pass, and gate 3
compares the aware timestamp with the naive midnight. -/
def prAwareCsv : PatientRecord := { basePatient with vitals := [vAwareCsv] }

/-- The parsed (offset-aware) timestamp of `vAwareCsv`. -/
def tsAware0600 : PyDateTime := ⟨midnight0 + 21600, true⟩

/-- A record exercising tie-breaking and unparsable timestamps in the
latest-vital scan. -/
def prScan : PatientRecord :=
  { basePatient with vitals := [vGood06, vGood07, vDup07, vBadTs] }

/-- A fully identified, eligible record. -/
def prEligible : PatientRecord :=
  ⟨some "C123", some "John", some "Doe", some "General", some "ICU", some "B1", [], [vGood06]⟩

/-- A request payload's `latestVital` at 06:00 passing the thresholds. -/
def lvForm : FormLatestVital :=
  ⟨some "2025-07-15T06:00:00", some (PyVal.vnum 50), some (PyVal.vnum 5)⟩

/-- A request payload "other vital" at 07:00, later than `lvForm`. -/
def fvForm : FormVital := ⟨some "2025-07-15T07:00:00", none, none⟩

/-- A request payload whose "other vital" postdates its `latestVital`. -/
def fdLateOther : FormData :=
  ⟨none, none, none, none, none, none, [], some lvForm, [fvForm]⟩

/-! ### Helper lemmas -/

lemma pyGT_ok {a b : PyDateTime} {c : Bool} (h : pyGT a b = .ok c) :
    a.aware = b.aware ∧ c = decide (b.seconds < a.seconds) := by
  unfold pyGT at h
  split at h
  · exact ⟨by assumption, (Except.ok.inj h).symm⟩
  · cases h

lemma pyGT_error {a b : PyDateTime} {e : PyErr} (h : pyGT a b = .error e) :
    ¬ a.aware = b.aware := by
  unfold pyGT at h
  split at h
  · cases h
  · assumption

/-- The latest-vital scan on an empty list returns the accumulator. -/
lemma scanVitals_nil (acc : Option (PyDateTime × Vital)) :
    scanVitals [] acc = .ok acc := rfl

/-- A successful scan result that selects a vital forces a non-empty
list or a non-empty accumulator. -/
lemma scanVitals_none_ne {dt : PyDateTime} {v : Vital}
    (h : scanVitals [] none = .ok (some (dt, v))) : False := by
  simp [scanVitals] at h

/-- If no vital has a parseable timestamp, the scan leaves the
accumulator untouched. -/
lemma scanVitals_unparseable :
    ∀ (vs : List Vital) (acc : Option (PyDateTime × Vital)),
    (∀ u ∈ vs, vitalTs u = none) → scanVitals vs acc = .ok acc := by
  intro vs
  induction vs with
  | nil => intro acc _; rfl
  | cons w rest ih =>
    intro acc hall
    have hw : vitalTs w = none := hall w (List.mem_cons_self w rest)
    simp only [scanVitals, hw]
    exact ih acc (fun u hu => hall u (List.mem_cons_of_mem w hu))

/-- Full characterisation of a successful latest-vital scan: the result
is either the untouched accumulator (bounding every parseable element),
or an element of the list that strictly beat the accumulator and every
earlier parseable element, and is at least as late as every later one.
All parseable elements share the winner's awareness (otherwise the
Python comparison would have raised `TypeError`). -/
lemma scanVitals_ok_spec :
    ∀ (vs : List Vital) (acc : Option (PyDateTime × Vital)) (dt : PyDateTime) (v : Vital),
    scanVitals vs acc = .ok (some (dt, v)) →
    (acc = some (dt, v) ∧
      ∀ u ∈ vs, ∀ du, vitalTs u = some du → du.aware = dt.aware ∧ du.seconds ≤ dt.seconds) ∨
    (∃ l₁ l₂, vs = l₁ ++ v :: l₂ ∧ vitalTs v = some dt ∧
      (∀ mx mv, acc = some (mx, mv) → mx.aware = dt.aware ∧ mx.seconds < dt.seconds) ∧
      (∀ u ∈ l₁, ∀ du, vitalTs u = some du → du.aware = dt.aware ∧ du.seconds < dt.seconds) ∧
      (∀ u ∈ l₂, ∀ du, vitalTs u = some du → du.aware = dt.aware ∧ du.seconds ≤ dt.seconds)) := by
  intro vs
  induction vs with
  | nil =>
    intro acc dt v h
    left
    refine ⟨?_, by simp⟩
    simpa [scanVitals] using h
  | cons w rest ih =>
    intro acc dt v h
    simp only [scanVitals] at h
    cases hw : vitalTs w with
    | none =>
      rw [hw] at h
      rcases ih acc dt v h with ⟨ha, hall⟩ | ⟨l₁, l₂, heq, hv, hacc, h₁, h₂⟩
      · left
        refine ⟨ha, ?_⟩
        intro u hu du hdu
        rcases List.mem_cons.mp hu with rfl | hu'
        · rw [hw] at hdu; cases hdu
        · exact hall u hu' du hdu
      · right
        refine ⟨w :: l₁, l₂, by rw [heq, List.cons_append], hv, hacc, ?_, h₂⟩
        intro u hu du hdu
        rcases List.mem_cons.mp hu with rfl | hu'
        · rw [hw] at hdu; cases hdu
        · exact h₁ u hu' du hdu
    | some du =>
      rw [hw] at h
      cases acc with
      | none =>
        rcases ih (some (du, w)) dt v h with ⟨ha, hall⟩ | ⟨l₁, l₂, heq, hv, hacc, h₁, h₂⟩
        · obtain ⟨rfl, rfl⟩ : du = dt ∧ w = v := by simpa using ha
          right
          exact ⟨[], rest, rfl, hw, fun mx mv hmx => Option.noConfusion hmx, by simp, hall⟩
        · have hduP := hacc du w rfl
          right
          refine ⟨w :: l₁, l₂, by rw [heq, List.cons_append], hv,
            fun mx mv hmx => Option.noConfusion hmx, ?_, h₂⟩
          intro u hu du' hdu'
          rcases List.mem_cons.mp hu with rfl | hu'
          · rw [hw] at hdu'
            obtain rfl : du = du' := Option.some.inj hdu'
            exact hduP
          · exact h₁ u hu' du' hdu'
      | some mxmv =>
        obtain ⟨mx, mv⟩ := mxmv
        replace h : (match pyGT du mx with
            | .error e => (Except.error e : Except PyErr (Option (PyDateTime × Vital)))
            | .ok true => scanVitals rest (some (du, w))
            | .ok false => scanVitals rest (some (mx, mv))) = .ok (some (dt, v)) := h
        cases hcmp : pyGT du mx with
        | error e => rw [hcmp] at h; simp at h
        | ok c =>
          obtain ⟨hA, rfl⟩ := pyGT_ok hcmp
          rw [hcmp] at h
          cases hd : decide (mx.seconds < du.seconds) with
          | true =>
            have hlt : mx.seconds < du.seconds := of_decide_eq_true hd
            rw [hd] at h
            rcases ih (some (du, w)) dt v h with ⟨ha, hall⟩ | ⟨l₁, l₂, heq, hv, hacc, h₁, h₂⟩
            · obtain ⟨rfl, rfl⟩ : du = dt ∧ w = v := by simpa using ha
              right
              refine ⟨[], rest, rfl, hw, ?_, by simp, hall⟩
              intro mx' mv' hmx'
              obtain ⟨rfl, rfl⟩ : mx' = mx ∧ mv' = mv := by simpa using hmx'.symm
              exact ⟨hA.symm, hlt⟩
            · have hduP := hacc du w rfl
              right
              refine ⟨w :: l₁, l₂, by rw [heq, List.cons_append], hv, ?_, ?_, h₂⟩
              · intro mx' mv' hmx'
                obtain ⟨rfl, rfl⟩ : mx' = mx ∧ mv' = mv := by simpa using hmx'.symm
                exact ⟨hA.symm.trans hduP.1, hlt.trans hduP.2⟩
              · intro u hu du' hdu'
                rcases List.mem_cons.mp hu with rfl | hu'
                · rw [hw] at hdu'
                  obtain rfl : du = du' := Option.some.inj hdu'
                  exact hduP
                · exact h₁ u hu' du' hdu'
          | false =>
            have hle : du.seconds ≤ mx.seconds := not_lt.mp (of_decide_eq_false hd)
            rw [hd] at h
            rcases ih (some (mx, mv)) dt v h with ⟨ha, hall⟩ | ⟨l₁, l₂, heq, hv, hacc, h₁, h₂⟩
            · obtain ⟨rfl, rfl⟩ : mx = dt ∧ mv = v := by simpa using ha
              left
              refine ⟨rfl, ?_⟩
              intro u hu du' hdu'
              rcases List.mem_cons.mp hu with rfl | hu'
              · rw [hw] at hdu'
                obtain rfl : du = du' := Option.some.inj hdu'
                exact ⟨hA, hle⟩
              · exact hall u hu' du' hdu'
            · have hmxP := hacc mx mv rfl
              right
              refine ⟨w :: l₁, l₂, by rw [heq, List.cons_append], hv, ?_, ?_, h₂⟩
              · intro mx' mv' hmx'
                obtain ⟨rfl, rfl⟩ : mx' = mx ∧ mv' = mv := by simpa using hmx'.symm
                exact hmxP
              · intro u hu du' hdu'
                rcases List.mem_cons.mp hu with rfl | hu'
                · rw [hw] at hdu'
                  obtain rfl : du = du' := Option.some.inj hdu'
                  exact ⟨hA.trans hmxP.1, lt_of_le_of_lt hle hmxP.2⟩
                · exact h₁ u hu' du' hdu'

/-- Winner form of `scanVitals_ok_spec` for the empty accumulator the
checker starts from. -/
lemma scanVitals_winner {vs : List Vital} {dt : PyDateTime} {v : Vital}
    (h : scanVitals vs none = .ok (some (dt, v))) :
    ∃ l₁ l₂, vs = l₁ ++ v :: l₂ ∧ vitalTs v = some dt ∧
      (∀ u ∈ l₁, ∀ du, vitalTs u = some du → du.aware = dt.aware ∧ du.seconds < dt.seconds) ∧
      (∀ u ∈ l₂, ∀ du, vitalTs u = some du → du.aware = dt.aware ∧ du.seconds ≤ dt.seconds) := by
  rcases scanVitals_ok_spec vs none dt v h with ⟨ha, _⟩ | ⟨l₁, l₂, heq, hv, _, h₁, h₂⟩
  · cases ha
  · exact ⟨l₁, l₂, heq, hv, h₁, h₂⟩

/-- The scan winner carries the maximum parseable timestamp, and every
parseable timestamp in the list shares its awareness. -/
lemma scanVitals_max {vs : List Vital} {dt : PyDateTime} {v : Vital}
    (h : scanVitals vs none = .ok (some (dt, v))) :
    vitalTs v = some dt ∧
      ∀ u ∈ vs, ∀ du, vitalTs u = some du → du.aware = dt.aware ∧ du.seconds ≤ dt.seconds := by
  obtain ⟨l₁, l₂, heq, hv, h₁, h₂⟩ := scanVitals_winner h
  refine ⟨hv, ?_⟩
  intro u hu du hdu
  rw [heq] at hu
  rcases List.mem_append.mp hu with hu₁ | hu₂
  · obtain ⟨ha, hlt⟩ := h₁ u hu₁ du hdu
    exact ⟨ha, le_of_lt hlt⟩
  · rcases List.mem_cons.mp hu₂ with rfl | hu₂'
    · rw [hv] at hdu
      obtain rfl : dt = du := Option.some.inj hdu
      exact ⟨rfl, le_refl _⟩
    · exact h₂ u hu₂' du hdu

lemma pyLT_ok {a b : PyDateTime} {c : Bool} (h : pyLT a b = .ok c) :
    a.aware = b.aware ∧ c = decide (a.seconds < b.seconds) := by
  unfold pyLT at h
  split at h
  · exact ⟨by assumption, (Except.ok.inj h).symm⟩
  · cases h

lemma pyLT_error {a b : PyDateTime} {e : PyErr} (h : pyLT a b = .error e) :
    ¬ a.aware = b.aware := by
  unfold pyLT at h
  split at h
  · cases h
  · assumption

/-- When every parseable vital is offset-naive, gate 3 raises nothing and
returns exactly "some vital satisfies the trigger condition". -/
lemma gate3Scan_of_naive (start : Int) :
    ∀ vs : List Vital, (∀ u ∈ vs, ∀ du, vitalTs u = some du → du.aware = false) →
    gate3Scan start vs = .ok (vs.any (isTrigger start)) := by
  intro vs
  induction vs with
  | nil => intro _; rfl
  | cons w rest ih =>
    intro hall
    have htail := fun u hu => hall u (List.mem_cons_of_mem w hu)
    simp only [gate3Scan, List.any_cons]
    split
    next heq =>
      have htr : isTrigger start w = false := by simp [isTrigger, heq]
      rw [htr, Bool.false_or]
      exact ih htail
    next du heq =>
      have hna : du.aware = false := hall w (List.mem_cons_self w rest) du heq
      split
      next e hcmp => exact absurd (pyLT_error hcmp) (by simp [hna])
      next hcmp =>
        obtain ⟨_, hdec⟩ := pyLT_ok hcmp
        have hlt : du.seconds < start := of_decide_eq_true hdec.symm
        have htr : isTrigger start w = false := by
          simp [isTrigger, heq, hlt.not_le]
        rw [htr, Bool.false_or]
        exact ih htail
      next hcmp =>
        obtain ⟨_, hdec⟩ := pyLT_ok hcmp
        have hge : start ≤ du.seconds := not_lt.mp (of_decide_eq_false hdec.symm)
        split
        next hcsv =>
          split
          next q hhr =>
            split
            next h120 =>
              have htr : isTrigger start w = true := by
                simp [isTrigger, heq, hna, hge, hcsv, hhr, h120]
              rw [htr]
              rfl
            next h120 =>
              have htr : isTrigger start w = false := by
                simp [isTrigger, heq, hhr, h120]
              rw [htr, Bool.false_or]
              exact ih htail
          next hhr =>
            have htr : isTrigger start w = false := by
              simp [isTrigger, heq, hhr]
            rw [htr, Bool.false_or]
            exact ih htail
        next hcsv =>
          have htr : isTrigger start w = false := by
            simp [isTrigger, heq, hcsv]
          rw [htr, Bool.false_or]
          exact ih htail

/-- The lower-cased name the medication scan computes for a string-named
entry is `strLower` of the stored name. -/
lemma medNameLower_of_name {m : Medication} {s : String}
    (hname : m.name = some (PyVal.vstr s)) :
    medNameLower m = .ok (strLower s) := by
  by_cases hs : s = ""
  · subst hs
    simp [medNameLower, hname, strLower]
  · simp [medNameLower, hname, hs]

/-- If some entry has a string name whose lower-casing contains
`"noradrenaline"`, the medication scan cannot report "no match": it
either finds a match or raises on an earlier entry. -/
lemma medsNoradrenaline_found :
    ∀ ms : List Medication,
    (∃ m ∈ ms, ∃ s, m.name = some (PyVal.vstr s) ∧
      strHasSubstr (strLower s) "noradrenaline" = true) →
    medsNoradrenaline ms ≠ .ok false := by
  intro ms
  induction ms with
  | nil => rintro ⟨m, hm, _⟩; simp at hm
  | cons m0 rest ih =>
    rintro ⟨m, hm, s, hname, hsub⟩ hcontra
    simp only [medsNoradrenaline] at hcontra
    split at hcontra
    · cases hcontra
    next nm hml =>
      split at hcontra
      · cases hcontra
      next hfound =>
        rcases List.mem_cons.mp hm with rfl | hm'
        · rw [medNameLower_of_name hname] at hml
          obtain rfl : strLower s = nm := Except.ok.inj hml
          exact hfound hsub
        · exact ih ⟨m, hm', s, hname, hsub⟩ hcontra

/-! ### Glue lemmas for the decision pipeline -/

lemma sbtDecision_of_scan {pr : PatientRecord} (d : PyDate) {dt : PyDateTime} {lv : Vital}
    (h : scanVitals pr.vitals none = .ok (some (dt, lv))) :
    sbtDecision pr d = gatesAfterLatest pr d lv := by
  have hne : pr.vitals ≠ [] := by
    intro he
    rw [he] at h
    exact scanVitals_none_ne h
  simp [sbtDecision, hne, h]

lemma gatesAfterLatest_fio2_none {lv : Vital} (pr : PatientRecord) (d : PyDate)
    (hf : coerceNum lv.daysFiO2 = none) : gatesAfterLatest pr d lv = .ok false := by
  simp [gatesAfterLatest, hf]

lemma gatesAfterLatest_fio2_high {lv : Vital} {f : Rat} (pr : PatientRecord) (d : PyDate)
    (hf : coerceNum lv.daysFiO2 = some f) (h60 : 60 ≤ f) :
    gatesAfterLatest pr d lv = .ok false := by
  simp [gatesAfterLatest, hf, h60]

lemma gatesAfterLatest_peep_none {lv : Vital} {f : Rat} (pr : PatientRecord) (d : PyDate)
    (hf : coerceNum lv.daysFiO2 = some f) (hp : coerceNum lv.daysVentPEEP = none) :
    gatesAfterLatest pr d lv = .ok false := by
  simp only [gatesAfterLatest, hf, hp]
  split
  · rfl
  · rfl

lemma gatesAfterLatest_peep_high {lv : Vital} {f p : Rat} (pr : PatientRecord) (d : PyDate)
    (hf : coerceNum lv.daysFiO2 = some f) (hp : coerceNum lv.daysVentPEEP = some p)
    (h10 : 10 ≤ p) : gatesAfterLatest pr d lv = .ok false := by
  simp only [gatesAfterLatest, hf, hp]
  split
  · rfl
  · simp [h10]

lemma gatesAfterLatest_pass {lv : Vital} {f p : Rat} (pr : PatientRecord) (d : PyDate)
    (hf : coerceNum lv.daysFiO2 = some f) (h60 : f < 60)
    (hp : coerceNum lv.daysVentPEEP = some p) (h10 : p < 10) :
    gatesAfterLatest pr d lv =
      match medsNoradrenaline pr.medications with
      | .error e => .error e
      | .ok true => .ok false
      | .ok false =>
        match gate3Scan (dateStartSeconds d) pr.vitals with
        | .error e => .error e
        | .ok true => .ok false
        | .ok false => .ok true := by
  simp [gatesAfterLatest, hf, hp, h60.not_le, h10.not_le]

lemma check_absent {pr : PatientRecord} {d : PyDate} (now : String)
    (h : sbtDecision pr d = .ok false) :
    check_sbt_eligibility pr d now = .ok none := by
  simp [check_sbt_eligibility, h]

lemma check_task {pr : PatientRecord} {d : PyDate} (now : String)
    (h : sbtDecision pr d = .ok true) :
    check_sbt_eligibility pr d now = .ok (some (mkTask pr now)) := by
  simp [check_sbt_eligibility, h]

lemma check_task_inv {pr : PatientRecord} {d : PyDate} {now : String} {t : Task}
    (h : check_sbt_eligibility pr d now = .ok (some t)) :
    sbtDecision pr d = .ok true ∧ t = mkTask pr now := by
  unfold check_sbt_eligibility at h
  split at h
  · cases h
  · simp at h
  next hd => exact ⟨hd, (Option.some.inj (Except.ok.inj h)).symm⟩

/-- A claim-side statement that the evaluator cannot return a task. -/
lemma no_task_of_decision_ne {pr : PatientRecord} {d : PyDate} {now : String}
    (h : sbtDecision pr d ≠ .ok true) (t : Task) :
    check_sbt_eligibility pr d now ≠ .ok (some t) := by
  intro hc
  exact h (check_task_inv hc).1

/-- Inversion of a fully successful decision: every gate's exit
condition. -/
lemma decision_true_inv {pr : PatientRecord} {d : PyDate}
    (h : sbtDecision pr d = .ok true) :
    ∃ dt lv f p, scanVitals pr.vitals none = .ok (some (dt, lv)) ∧
      coerceNum lv.daysFiO2 = some f ∧ f < 60 ∧
      coerceNum lv.daysVentPEEP = some p ∧ p < 10 ∧
      medsNoradrenaline pr.medications = .ok false ∧
      gate3Scan (dateStartSeconds d) pr.vitals = .ok false := by
  unfold sbtDecision at h
  split at h
  · cases h
  · split at h
    · cases h
    · cases h
    next dt lv hscan =>
      unfold gatesAfterLatest at h
      split at h
      · cases h
      next f hf =>
        split at h
        · cases h
        next h60 =>
          split at h
          · cases h
          next p hp =>
            split at h
            · cases h
            next h10 =>
              split at h
              · cases h
              · cases h
              next hmeds =>
                split at h
                · cases h
                · cases h
                next hg3 =>
                  exact ⟨dt, lv, f, p, hscan, hf, not_le.mp h60, hp,
                    not_le.mp h10, hmeds, hg3⟩

/-! ### The claims -/

/-- C1.  The claim says `check_sbt_eligibility` never raises and in
particular tolerates mixed Z-suffixed/offset-less timestamps and
non-string medication names.  The code contradicts this (and its own
"degrade, don't throw" handling): comparing an offset-aware with an
offset-naive parsed timestamp raises an uncaught `TypeError`, and
`.lower()` on a truthy non-string medication name raises an uncaught
`AttributeError`.  This theorem evaluates the checker at both failing
inputs. -/
theorem c1_checker_raises_on_malformed_input :
    check_sbt_eligibility prMixedTz checkDate0 "2025-07-15T12:00:00" =
      .error .typeError ∧
    check_sbt_eligibility prBadMedName checkDate0 "2025-07-15T12:00:00" =
      .error .attributeError :=
  ⟨rfl, rfl⟩

/-- C2.  When the latest-vital scan selects vital `v`, the evaluator
returns Absent if either threshold field is missing/uncoercible, and
returns Absent whenever the two coerced values do not satisfy the strict
inequalities `daysFiO2 < 60` and `daysVentPEEP < 10` (so values exactly
at a threshold yield Absent). -/
theorem c2_latest_vital_thresholds (pr : PatientRecord) (d : PyDate) (now : String)
    (dt : PyDateTime) (v : Vital)
    (hscan : scanVitals pr.vitals none = .ok (some (dt, v))) :
    ((coerceNum v.daysFiO2 = none ∨ coerceNum v.daysVentPEEP = none) →
      check_sbt_eligibility pr d now = .ok none) ∧
    (∀ a b, coerceNum v.daysFiO2 = some a → coerceNum v.daysVentPEEP = some b →
      ¬(a < 60 ∧ b < 10) → check_sbt_eligibility pr d now = .ok none) := by
  constructor
  · rintro (hf | hp)
    · exact check_absent now
        ((sbtDecision_of_scan d hscan).trans (gatesAfterLatest_fio2_none pr d hf))
    · cases hf : coerceNum v.daysFiO2 with
      | none =>
        exact check_absent now
          ((sbtDecision_of_scan d hscan).trans (gatesAfterLatest_fio2_none pr d hf))
      | some f =>
        exact check_absent now
          ((sbtDecision_of_scan d hscan).trans (gatesAfterLatest_peep_none pr d hf hp))
  · intro a b ha hb hnot
    rcases not_and_or.mp hnot with h60 | h10
    · exact check_absent now
        ((sbtDecision_of_scan d hscan).trans
          (gatesAfterLatest_fio2_high pr d ha (not_lt.mp h60)))
    · exact check_absent now
        ((sbtDecision_of_scan d hscan).trans
          (gatesAfterLatest_peep_high pr d ha hb (not_lt.mp h10)))

/-- C2 witness: a latest vital with `daysFiO2` exactly 60 yields
Absent. -/
theorem c2_latest_vital_thresholds_witness :
    check_sbt_eligibility prBoundary checkDate0 "T" = .ok none :=
  (c2_latest_vital_thresholds prBoundary checkDate0 "T" ts0600 vBoundary60 rfl).2
    60 5 rfl rfl (by decide)

/-- C3 counterexample: the claim says any noradrenaline-containing
medication name forces Absent, but on this record — an eligible latest
vital, a truthy non-string medication name followed by a matching
"Noradrenaline" entry — the checker raises `AttributeError` instead of
returning Absent. -/
theorem c3_counterexample :
    (∃ m ∈ prNoradRaise.medications, ∃ s, m.name = some (PyVal.vstr s) ∧
      strHasSubstr (strLower s) "noradrenaline" = true) ∧
    check_sbt_eligibility prNoradRaise checkDate0 "T" ≠ .ok none := by
  constructor
  · refine ⟨⟨some (PyVal.vstr "Noradrenaline")⟩, ?_, "Noradrenaline", rfl, by decide⟩
    exact List.mem_cons_of_mem _ (List.mem_cons_self _ _)
  · intro h
    rw [show check_sbt_eligibility prNoradRaise checkDate0 "T" =
      .error .attributeError from rfl] at h
    cases h

/-- C3 (amended).  If some active medication entry has a string name
whose lower-casing contains `"noradrenaline"`, the evaluator never
returns a Task: it returns Absent unless evaluation raises an uncaught
exception first (which can happen when an earlier entry has a truthy
non-string name, or when the vital timestamps mix awareness). -/
theorem c3_noradrenaline_blocks_task (pr : PatientRecord) (d : PyDate) (now : String)
    (hmed : ∃ m ∈ pr.medications, ∃ s, m.name = some (PyVal.vstr s) ∧
      strHasSubstr (strLower s) "noradrenaline" = true) (t : Task) :
    check_sbt_eligibility pr d now ≠ .ok (some t) := by
  apply no_task_of_decision_ne
  intro hd
  obtain ⟨_, _, _, _, _, _, _, _, _, hmeds, _⟩ := decision_true_inv hd
  exact medsNoradrenaline_found pr.medications hmed hmeds

/-- C3 witness: the spec's own example name "IV Noradrenaline
bitartrate" (substring, case-insensitive) blocks the task. -/
theorem c3_noradrenaline_blocks_task_witness :
    check_sbt_eligibility prNorad checkDate0 "T" ≠ .ok (some (mkTask prNorad "T")) :=
  c3_noradrenaline_blocks_task prNorad checkDate0 "T"
    ⟨⟨some (PyVal.vstr "IV Noradrenaline bitartrate")⟩, List.mem_cons_self _ _,
      "IV Noradrenaline bitartrate", rfl, by decide⟩
    (mkTask prNorad "T")

/-- C4 counterexample: the claim says a vital with a parsed timestamp
at or after midnight of the check date, `daysVentBreathSequence =
"csv"` and `daysHR` coercing below 120 forces Absent even when gates 1
and 2 pass.  On this record — a single Z-suffixed vital meeting all of
those conditions, with gates 1 and 2 demonstrably passing — gate 3's
comparison of the offset-aware timestamp with the naive midnight raises
an uncaught `TypeError` instead, so the evaluator does not return
Absent. -/
theorem c4_counterexample :
    (∃ v ∈ prAwareCsv.vitals, ∃ dt, vitalTs v = some dt ∧
      dateStartSeconds checkDate0 ≤ dt.seconds ∧
      v.daysVentBreathSequence = some (PyVal.vstr "csv") ∧
      ∃ h, coerceNum v.daysHR = some h ∧ h < 120) ∧
    scanVitals prAwareCsv.vitals none = .ok (some (tsAware0600, vAwareCsv)) ∧
    coerceNum vAwareCsv.daysFiO2 = some 50 ∧
    coerceNum vAwareCsv.daysVentPEEP = some 5 ∧
    medsNoradrenaline prAwareCsv.medications = .ok false ∧
    check_sbt_eligibility prAwareCsv checkDate0 "T" ≠ .ok none := by
  refine ⟨⟨vAwareCsv, List.mem_cons_self _ _, tsAware0600, rfl, by decide, rfl,
    100, rfl, by decide⟩, rfl, rfl, rfl, rfl, ?_⟩
  intro h
  rw [show check_sbt_eligibility prAwareCsv checkDate0 "T" =
    .error .typeError from rfl] at h
  cases h

/-- C4 (amended).  With the latest-vital scan succeeding on an
offset-naive winner, gate 1 passing, and the medication scan passing,
the evaluator returns Absent exactly when some vital triggers the
recent-instability condition (parseable naive timestamp at or after
midnight of the check date, `daysVentBreathSequence = "csv"`, and
`daysHR` coercing to a value below 120); when no vital triggers it — in
particular when a `"csv"` vital's `daysHR` is missing or uncoercible —
the task is returned.  The naive-winner proviso is forced by the
counterexample above: an offset-aware timestamp makes gate 3 raise
`TypeError` rather than return Absent. -/
theorem c4_recent_instability_gate (pr : PatientRecord) (d : PyDate) (now : String)
    (dt0 : PyDateTime) (v0 : Vital) (f p : Rat)
    (hscan : scanVitals pr.vitals none = .ok (some (dt0, v0)))
    (hnaive : dt0.aware = false)
    (hf : coerceNum v0.daysFiO2 = some f) (h60 : f < 60)
    (hp : coerceNum v0.daysVentPEEP = some p) (h10 : p < 10)
    (hmeds : medsNoradrenaline pr.medications = .ok false) :
    (pr.vitals.any (isTrigger (dateStartSeconds d)) = true →
      check_sbt_eligibility pr d now = .ok none) ∧
    (pr.vitals.any (isTrigger (dateStartSeconds d)) = false →
      check_sbt_eligibility pr d now = .ok (some (mkTask pr now))) := by
  have hAllNaive : ∀ u ∈ pr.vitals, ∀ du, vitalTs u = some du → du.aware = false := by
    intro u hu du hdu
    obtain ⟨_, hmax⟩ := scanVitals_max hscan
    exact ((hmax u hu du hdu).1).trans hnaive
  have hg3 := gate3Scan_of_naive (dateStartSeconds d) pr.vitals hAllNaive
  have hdec : sbtDecision pr d =
      (match gate3Scan (dateStartSeconds d) pr.vitals with
       | .error e => .error e
       | .ok true => .ok false
       | .ok false => .ok true) := by
    rw [sbtDecision_of_scan d hscan, gatesAfterLatest_pass pr d hf h60 hp h10, hmeds]
  rw [hg3] at hdec
  constructor
  · intro hany
    rw [hany] at hdec
    exact check_absent now hdec
  · intro hany
    rw [hany] at hdec
    exact check_task now hdec

/-- C4 witness: an earlier same-day `"csv"` vital with heart rate 100
forces Absent although the latest vital passes gate 1 and no
noradrenaline is given. -/
theorem c4_recent_instability_gate_witness :
    check_sbt_eligibility prGate3 checkDate0 "T" = .ok none :=
  (c4_recent_instability_gate prGate3 checkDate0 "T" ts0700 vGood07 50 5
    rfl rfl rfl (by decide) rfl (by decide) rfl).1 rfl

/-- C5.  The vital the scan selects is an element of the list with a
parseable timestamp that is strictly greater than every earlier
parseable timestamp and at least as great as every later one: the
first-seen maximum.  Being a function of the list, the selection is
deterministic. -/
theorem c5_latest_vital_selection (vs : List Vital) (dt : PyDateTime) (v : Vital)
    (hscan : scanVitals vs none = .ok (some (dt, v))) :
    ∃ l₁ l₂, vs = l₁ ++ v :: l₂ ∧ vitalTs v = some dt ∧
      (∀ u ∈ l₁, ∀ du, vitalTs u = some du → du.seconds < dt.seconds) ∧
      (∀ u ∈ l₂, ∀ du, vitalTs u = some du → du.seconds ≤ dt.seconds) := by
  obtain ⟨l₁, l₂, heq, hv, h₁, h₂⟩ := scanVitals_winner hscan
  exact ⟨l₁, l₂, heq, hv,
    fun u hu du hdu => (h₁ u hu du hdu).2,
    fun u hu du hdu => (h₂ u hu du hdu).2⟩

/-- C5 witness: on a list with a later maximum, a tie after it and an
unparsable timestamp, the scan picks the first maximum. -/
theorem c5_latest_vital_selection_witness :
    ∃ l₁ l₂, prScan.vitals = l₁ ++ vGood07 :: l₂ ∧ vitalTs vGood07 = some ts0700 ∧
      (∀ u ∈ l₁, ∀ du, vitalTs u = some du → du.seconds < ts0700.seconds) ∧
      (∀ u ∈ l₂, ∀ du, vitalTs u = some du → du.seconds ≤ ts0700.seconds) :=
  c5_latest_vital_selection prScan.vitals ts0700 vGood07 rfl

/-- C6.  An empty vitals list, or one in which no vital has a parseable
timestamp, yields Absent. -/
theorem c6_no_parseable_timestamp_absent (pr : PatientRecord) (d : PyDate) (now : String)
    (h : pr.vitals = [] ∨ ∀ u ∈ pr.vitals, vitalTs u = none) :
    check_sbt_eligibility pr d now = .ok none := by
  rcases h with hnil | hall
  · exact check_absent now (by simp [sbtDecision, hnil])
  · by_cases hnil : pr.vitals = []
    · exact check_absent now (by simp [sbtDecision, hnil])
    · have hscan := scanVitals_unparseable pr.vitals none hall
      exact check_absent now (by simp [sbtDecision, hnil, hscan])

/-- C6 witness: the empty record is Absent. -/
theorem c6_no_parseable_timestamp_absent_witness :
    check_sbt_eligibility basePatient checkDate0 "T" = .ok none :=
  c6_no_parseable_timestamp_absent basePatient checkDate0 "T" (Or.inl rfl)

/-- C7.  Every returned task carries the fixed `createdBy`, `Urgency`
and `Message` literals, copies `CPMRN`/`hospitalName`/`unitName`/`bedNo`
(absent becoming the empty string), sets `createdAt` from the clock
read, and builds `patientName` by joining `name` and `lastName` with one
space and trimming, the empty string when both are absent or empty. -/
theorem c7_task_fields (pr : PatientRecord) (d : PyDate) (now : String) (t : Task)
    (h : check_sbt_eligibility pr d now = .ok (some t)) :
    t.createdBy = "SBT agent" ∧ t.Urgency = "Low" ∧
    t.Message = "Please order a SBT for this patient as patient is not on noradrenaline, and fio2 is less than 0.6 with a peep less than 10" ∧
    t.CPMRN = pr.CPMRN.getD "" ∧ t.hospital = pr.hospitalName.getD "" ∧
    t.unit = pr.unitName.getD "" ∧ t.BedNumber = pr.bedNo.getD "" ∧
    t.createdAt = now ∧
    t.patientName =
      (if pr.name.getD "" ≠ "" ∨ pr.lastName.getD "" ≠ ""
       then strTrim (pr.name.getD "" ++ " " ++ pr.lastName.getD "")
       else "") := by
  obtain ⟨_, rfl⟩ := check_task_inv h
  exact ⟨rfl, rfl, rfl, rfl, rfl, rfl, rfl, rfl, rfl⟩

/-- C7 witness: the field equations at a concrete eligible record. -/
theorem c7_task_fields_witness :
    (mkTask prEligible "NOW").createdBy = "SBT agent" ∧
    (mkTask prEligible "NOW").Urgency = "Low" ∧
    (mkTask prEligible "NOW").Message = "Please order a SBT for this patient as patient is not on noradrenaline, and fio2 is less than 0.6 with a peep less than 10" ∧
    (mkTask prEligible "NOW").CPMRN = prEligible.CPMRN.getD "" ∧
    (mkTask prEligible "NOW").hospital = prEligible.hospitalName.getD "" ∧
    (mkTask prEligible "NOW").unit = prEligible.unitName.getD "" ∧
    (mkTask prEligible "NOW").BedNumber = prEligible.bedNo.getD "" ∧
    (mkTask prEligible "NOW").createdAt = "NOW" ∧
    (mkTask prEligible "NOW").patientName =
      (if prEligible.name.getD "" ≠ "" ∨ prEligible.lastName.getD "" ≠ ""
       then strTrim (prEligible.name.getD "" ++ " " ++ prEligible.lastName.getD "")
       else "") :=
  c7_task_fields prEligible checkDate0 "NOW" (mkTask prEligible "NOW") rfl

/-- C8.  Two evaluations of the same record with the same check date
agree on everything except the `createdAt` clock read: same exception,
both Absent, or tasks equal after blanking `createdAt`. -/
theorem c8_deterministic_modulo_createdAt (pr : PatientRecord) (d : PyDate)
    (n₁ n₂ : String) :
    (check_sbt_eligibility pr d n₁).map (Option.map dropCreatedAt) =
    (check_sbt_eligibility pr d n₂).map (Option.map dropCreatedAt) := by
  unfold check_sbt_eligibility
  cases sbtDecision pr d with
  | error e => rfl
  | ok b =>
    cases b with
    | false => rfl
    | true => rfl

/-- C10.  The scan selects purely by timestamp: if the winner's
`daysFiO2` or `daysVentPEEP` does not coerce, the result is Absent no
matter what other vitals carry; and for any record built by the `/check`
route whose "other vitals" include one with a parsed timestamp later
than the `latestVital` entry's, the result is Absent, because the route
never copies the threshold fields onto "other vital" entries. -/
theorem c10_selection_ignores_clinical_fields (pr : PatientRecord) (fd : FormData)
    (d : PyDate) (now : String) :
    (∀ dt v, scanVitals pr.vitals none = .ok (some (dt, v)) →
      (coerceNum v.daysFiO2 = none ∨ coerceNum v.daysVentPEEP = none) →
      check_sbt_eligibility pr d now = .ok none) ∧
    (∀ dt v lv dtlv fv dtf,
      scanVitals (buildPatientJson fd).vitals none = .ok (some (dt, v)) →
      fd.latestVital = some lv →
      vitalTs (latestVitalEntry lv) = some dtlv →
      fv ∈ fd.vitals →
      vitalTs (otherVitalEntry fv) = some dtf →
      dtlv.seconds < dtf.seconds →
      check_sbt_eligibility (buildPatientJson fd) d now = .ok none) := by
  have part1 : ∀ (q : PatientRecord) dt v,
      scanVitals q.vitals none = .ok (some (dt, v)) →
      (coerceNum v.daysFiO2 = none ∨ coerceNum v.daysVentPEEP = none) →
      check_sbt_eligibility q d now = .ok none := by
    intro q dt v hscan hcoerce
    rcases hcoerce with hf | hp
    · exact check_absent now
        ((sbtDecision_of_scan d hscan).trans (gatesAfterLatest_fio2_none q d hf))
    · cases hf : coerceNum v.daysFiO2 with
      | none =>
        exact check_absent now
          ((sbtDecision_of_scan d hscan).trans (gatesAfterLatest_fio2_none q d hf))
      | some f =>
        exact check_absent now
          ((sbtDecision_of_scan d hscan).trans (gatesAfterLatest_peep_none q d hf hp))
  refine ⟨part1 pr, ?_⟩
  intro dt v lv dtlv fv dtf hscan hlv hts hfv htsf hlt
  have hlist : (buildPatientJson fd).vitals =
      latestVitalEntry lv :: fd.vitals.map otherVitalEntry := by
    simp [buildPatientJson, hlv]
  have hmem : otherVitalEntry fv ∈ (buildPatientJson fd).vitals := by
    rw [hlist]
    exact List.mem_cons_of_mem _ (List.mem_map_of_mem otherVitalEntry hfv)
  obtain ⟨hvv, hmax⟩ := scanVitals_max hscan
  have hbound : dtf.seconds ≤ dt.seconds := (hmax (otherVitalEntry fv) hmem dtf htsf).2
  cases hcf : coerceNum v.daysFiO2 with
  | none => exact part1 (buildPatientJson fd) dt v hscan (Or.inl hcf)
  | some fval =>
    exfalso
    have hvfio : v.daysFiO2 ≠ none := by
      intro hn
      rw [hn] at hcf
      cases hcf
    obtain ⟨l₁, l₂, heq, _, _, _⟩ := scanVitals_winner hscan
    have hvmem : v ∈ (buildPatientJson fd).vitals := by
      rw [heq]
      exact List.mem_append.mpr (Or.inr (List.mem_cons_self _ _))
    rw [hlist] at hvmem
    rcases List.mem_cons.mp hvmem with rfl | hvo
    · rw [hts] at hvv
      obtain rfl : dtlv = dt := Option.some.inj hvv
      exact absurd hbound (not_le.mpr hlt)
    · obtain ⟨fv', _, hfveq⟩ := List.mem_map.mp hvo
      exact hvfio (by rw [← hfveq]; rfl)

/-- C10 witness: a payload whose single "other vital" postdates its
`latestVital` yields Absent through the route's record builder. -/
theorem c10_selection_ignores_clinical_fields_witness :
    check_sbt_eligibility (buildPatientJson fdLateOther) checkDate0 "T" = .ok none :=
  (c10_selection_ignores_clinical_fields (buildPatientJson fdLateOther) fdLateOther
      checkDate0 "T").2
    ts0700 (otherVitalEntry fvForm) lvForm ts0600 fvForm ts0700
    rfl rfl rfl (List.mem_cons_self _ _) rfl (by decide)

end SBT
